import Mathlib

/-!
Formal model of the smart-home intrusion-alert pipeline
(`publisher.py` and `subscriber.py` of the aiot repository).

Timestamps (Python `time.time()` floats) and pixel coordinates are
embedded as rationals; Python ints as integers.  Fallible I/O calls
(`client.publish`, `json.loads`) are represented by explicit outcome
values, so the state transitions written in the source become total
Lean functions over those outcomes.
-/

/-! Tunable constants of `publisher.py` (lines 28-38). -/

def CONF_THRESHOLD : ℚ := 1/2

def COOLDOWN_SECONDS : ℚ := 5

def ROI_X1 : ℚ := 100

def ROI_Y1 : ℚ := 100

def ROI_X2 : ℚ := 500

def ROI_Y2 : ℚ := 400

def LOCATION_LABEL : String := "Living Room"

/-- `point_in_rect` of `publisher.py` (lines 88-94):
the chained comparison `x1 <= cx <= x2 and y1 <= cy <= y2`. -/
def point_in_rect (cx cy x1 y1 x2 y2 : ℚ) : Bool :=
  (decide (x1 ≤ cx) && decide (cx ≤ x2)) && (decide (y1 ≤ cy) && decide (cy ≤ y2))

/-- One YOLO detection as consumed by the frame loop (lines 137-149):
a resolved class label (`model.names.get(cls_id, "unknown")`), a
confidence score, and the integer bounding box `map(int, box.xyxy[0])`. -/
structure Detection where
  label : String
  conf : ℚ
  x1 : ℤ
  y1 : ℤ
  x2 : ℤ
  y2 : ℤ

/-- Center abscissa `cx = (x1 + x2) / 2` (line 148, Python true division). -/
def det_cx (d : Detection) : ℚ := ((d.x1 : ℚ) + (d.x2 : ℚ)) / 2

/-- Center ordinate `cy = (y1 + y2) / 2` (line 149). -/
def det_cy (d : Detection) : ℚ := ((d.y1 : ℚ) + (d.y2 : ℚ)) / 2

/-- The filter on line 143: `if label != "person" or conf < CONF_THRESHOLD:
continue` keeps exactly the detections with `label == "person"` and
`conf >= CONF_THRESHOLD`. -/
def detection_qualifies (d : Detection) : Bool :=
  d.label == "person" && decide (CONF_THRESHOLD ≤ d.conf)

/-- The per-frame intrusion flag (lines 132-167): `intrusion` starts
false and is set when some qualifying detection has its center inside
the ROI rectangle. -/
def frame_intrusion (dets : List Detection) : Bool :=
  dets.any fun d =>
    detection_qualifies d &&
      point_in_rect (det_cx d) (det_cy d) ROI_X1 ROI_Y1 ROI_X2 ROI_Y2

/-- Outcome of the `client.publish` call inside `publish_alert`
(lines 79-85): on success the function returns a fresh `time.time()`
reading (`sendTime`, taken at or after the frame's gate check); on an
exception it falls into the `except` branch. -/
inductive PublishOutcome where
  | success (sendTime : ℚ)
  | failure

/-- `publish_alert` of `publisher.py` (lines 67-85), restricted to its
returned value: `time.time()` on success, and on failure
`last_sent_ts if last_sent_ts is not None else 0.0`. -/
def publish_alert (outcome : PublishOutcome) (last_sent_ts : Option ℚ) : ℚ :=
  match outcome with
  | .success sendTime => sendTime
  | .failure =>
    match last_sent_ts with
    | some t => t
    | none => 0

/-- The cooldown test on line 195:
`(last_sent is None) or (now - last_sent >= COOLDOWN_SECONDS)`. -/
def cooldown_ok (last_sent : Option ℚ) (now : ℚ) : Bool :=
  match last_sent with
  | none => true
  | some t => decide (COOLDOWN_SECONDS ≤ now - t)

/-- One iteration's inputs to the dispatch logic of `main`
(lines 181-205): the frame's detections, the `now = time.time()`
reading of line 181, and the outcome of the publish attempt. -/
structure FrameInput where
  dets : List Detection
  now : ℚ
  outcome : PublishOutcome

/-- The dispatch step of `main` (lines 181-205): when the frame is
intruding and the cooldown test passes, the evidence write is attempted
(it does not touch `last_sent`) and `last_sent = publish_alert(client,
last_sent)` runs; otherwise `last_sent` is untouched.  The boolean
records whether the dispatch branch was taken. -/
def dispatch_step (last_sent : Option ℚ) (f : FrameInput) : Option ℚ × Bool :=
  if frame_intrusion f.dets && cooldown_ok last_sent f.now then
    (some (publish_alert f.outcome last_sent), true)
  else
    (last_sent, false)

/-- Folding `dispatch_step` over a sequence of frames, starting from a
given `last_sent` state; also collects the gate times (`now`) of the
accepted dispatches, in order. -/
def run_frames (last_sent : Option ℚ) : List FrameInput → Option ℚ × List ℚ
  | [] => (last_sent, [])
  | f :: fs =>
    let step := dispatch_step last_sent f
    let rest := run_frames step.1 fs
    (rest.1, (if step.2 then [f.now] else []) ++ rest.2)

/-- The gate times of the accepted dispatches along a run. -/
def accepted_times (last_sent : Option ℚ) (fs : List FrameInput) : List ℚ :=
  (run_frames last_sent fs).2

/-- A frame whose publish attempt succeeds, returning a send time taken
at or after the frame's own gate-check time (as `time.time()` inside
`publish_alert` runs after line 181's reading). -/
def prompt_success (f : FrameInput) : Bool :=
  match f.outcome with
  | .success sendTime => decide (f.now ≤ sendTime)
  | .failure => false

/-- A concrete qualifying detection: a person at confidence 0.9 whose
box center (250, 250) lies inside the ROI. -/
def demo_detection : Detection :=
  { label := "person", conf := 9/10, x1 := 200, y1 := 200, x2 := 300, y2 := 300 }

/-! Subscriber side (`subscriber.py`).  The inbound payload after
`json.loads` is a Python value; we embed it as a JSON value tree.
Field lists of objects represent parsed Python dicts, whose keys are
distinct. -/

/-- A decoded JSON value, the possible results of `json.loads`. -/
inductive Json where
  | null
  | bool (b : Bool)
  | num (q : ℚ)
  | str (s : String)
  | arr (elems : List Json)
  | obj (fields : List (String × Json))

/-- Python `data.get(key, default)` on a dict: the value stored under
`key`, or `default` when the key is absent. -/
def dict_get (fields : List (String × Json)) (key : String) (default : Json) : Json :=
  match fields.find? (fun p => p.1 == key) with
  | some p => p.2
  | none => default

/-- Python `==` between an arbitrary JSON value and a string literal
(line 80, `status == "INTRUSION"`): true only for an equal string. -/
def json_eq_str (j : Json) (s : String) : Bool :=
  match j with
  | .str t => t == s
  | _ => false

/-- What one `on_message` invocation of `subscriber.py` does. -/
inductive HandlerResult where
  /-- The red emergency line is printed once with the payload's
  location and timestamp, and `beep()` fires (lines 80-83). -/
  | alertShown (location timestamp : Json)
  /-- The informational line `[訊息] 收到非警報訊息` with the whole
  payload (line 85). -/
  | infoLogged (data : Json)
  /-- `json.loads` raised, the `except` branch logged the parse failure
  and returned (lines 72-74). -/
  | decodeFailureLogged
  /-- An exception escaped the handler: `data.get` on a non-dict value
  raises `AttributeError` outside the `try` block (line 76), and
  paho-mqtt propagates callback exceptions out of `loop_forever`. -/
  | uncaughtException

/-- `on_message` of `subscriber.py` (lines 68-85) over the outcome of
`json.loads(msg.payload.decode("utf-8"))`: `none` means the call
raised (malformed bytes), `some j` that it produced the value `j`. -/
def on_message (parsed : Option Json) : HandlerResult :=
  match parsed with
  | none => .decodeFailureLogged
  | some (.obj fields) =>
    let status := dict_get fields "status" (.str "")
    let ts := dict_get fields "timestamp" (.str "未知時間")
    let location := dict_get fields "location" (.str "未知位置")
    if json_eq_str status "INTRUSION" then .alertShown location ts
    else .infoLogged (.obj fields)
  | some _ => .uncaughtException

/-- The wire payload contract: three string fields (spec section 3,
built by `publish_alert` lines 73-77). -/
structure AlertEvent where
  status : String
  timestamp : String
  location : String

/-- The payload dict built by `publish_alert` (lines 73-77), before
`json.dumps`.  The serialize/parse pair `json.dumps` / `json.loads`
(Python standard library, external to this repository) is modelled as
the identity on JSON values. -/
def encode_alert (e : AlertEvent) : Json :=
  .obj [("status", .str e.status), ("timestamp", .str e.timestamp),
        ("location", .str e.location)]

/-- The subscriber's field extraction (lines 76-78), packaged as the
codec's decode: it yields an event exactly when the parsed value is an
object whose three extracted fields (after the documented defaulting)
are strings. -/
def decode_alert (parsed : Option Json) : Option AlertEvent :=
  match parsed with
  | some (.obj fields) =>
    match dict_get fields "status" (.str ""),
        dict_get fields "timestamp" (.str "未知時間"),
        dict_get fields "location" (.str "未知位置") with
    | .str s, .str t, .str l => some ⟨s, t, l⟩
    | _, _, _ => none
  | _ => none

/-- The event `publish_alert` emits for a given formatted clock
reading (lines 73-77). -/
def intrusion_event (ts : String) : AlertEvent :=
  { status := "INTRUSION", timestamp := ts, location := LOCATION_LABEL }

/-! Process startup and exit (publisher `main` lines 97-222,
subscriber `main` lines 93-110). -/

/-- How the publisher's frame loop ends once entered: the `q` key
(line 209), `KeyboardInterrupt` (line 213), or a runtime exception
caught on line 215.  All three fall through to the `finally` cleanup
and `main` returns normally. -/
inductive LoopEnding where
  | quitKey
  | interrupt
  | runtimeError

/-- Exit status and loop entry of the publisher process for given
startup outcomes: a failed `client.connect` (lines 107-112) or a
camera that does not open (lines 115-118) just print and `return` from
`main`, so the interpreter exits with status 0. -/
structure PublisherRun where
  exitCode : Nat
  loopEntered : Bool

/-- Control flow of publisher `main` (lines 97-222) over the startup
outcomes and the eventual loop ending. -/
def publisher_main (connect_ok camera_ok : Bool) (ending : LoopEnding) : PublisherRun :=
  if !connect_ok then { exitCode := 0, loopEntered := false }
  else if !camera_ok then { exitCode := 0, loopEntered := false }
  else
    match ending with
    | .quitKey => { exitCode := 0, loopEntered := true }
    | .interrupt => { exitCode := 0, loopEntered := true }
    | .runtimeError => { exitCode := 0, loopEntered := true }

/-- Exit status of subscriber `main` (lines 93-110): `sys.exit(1)` when
the initial connect raises (line 100), otherwise the loop runs until
`KeyboardInterrupt`, which is caught, and `main` returns normally. -/
def subscriber_main (connect_ok : Bool) : Nat :=
  if !connect_ok then 1 else 0

/-! Helper lemmas. -/

lemma publish_alert_success (t : ℚ) (s : Option ℚ) :
    publish_alert (.success t) s = t := rfl

lemma prompt_success_elim (f : FrameInput) (h : prompt_success f = true) :
    ∃ t, f.outcome = .success t ∧ f.now ≤ t := by
  unfold prompt_success at h
  cases ho : f.outcome with
  | success t =>
    rw [ho] at h
    exact ⟨t, rfl, of_decide_eq_true h⟩
  | failure =>
    rw [ho] at h
    exact absurd h (by simp)

lemma accepted_times_nil (s : Option ℚ) : accepted_times s [] = [] := rfl

lemma accepted_times_cons_accept (s : Option ℚ) (f : FrameInput) (fs : List FrameInput)
    (h : (frame_intrusion f.dets && cooldown_ok s f.now) = true) :
    accepted_times s (f :: fs) =
      f.now :: accepted_times (some (publish_alert f.outcome s)) fs := by
  simp [accepted_times, run_frames, dispatch_step, h]

lemma accepted_times_cons_reject (s : Option ℚ) (f : FrameInput) (fs : List FrameInput)
    (h : (frame_intrusion f.dets && cooldown_ok s f.now) = false) :
    accepted_times s (f :: fs) = accepted_times s fs := by
  simp [accepted_times, run_frames, dispatch_step, h]

lemma cooldown_ok_some (t now : ℚ) (h : cooldown_ok (some t) now = true) :
    COOLDOWN_SECONDS ≤ now - t := by
  simpa [cooldown_ok] using h

lemma accepted_times_lb (fs : List FrameInput)
    (hok : ∀ f ∈ fs, prompt_success f = true) :
    ∀ s0 : ℚ, ∀ t ∈ accepted_times (some s0) fs, s0 + COOLDOWN_SECONDS ≤ t := by
  induction fs with
  | nil =>
    intro s0 t ht
    simp [accepted_times_nil] at ht
  | cons f fs ih =>
    intro s0 t ht
    have hok_tail : ∀ g ∈ fs, prompt_success g = true :=
      fun g hg => hok g (List.mem_cons_of_mem _ hg)
    by_cases hacc : (frame_intrusion f.dets && cooldown_ok (some s0) f.now) = true
    · obtain ⟨t0, ho, hnt⟩ := prompt_success_elim f (hok f (List.mem_cons_self _ _))
      rw [accepted_times_cons_accept _ _ _ hacc, ho, publish_alert_success] at ht
      have hgate : COOLDOWN_SECONDS ≤ f.now - s0 :=
        cooldown_ok_some _ _ ((Bool.and_eq_true _ _).mp hacc).2
      have hC : (0 : ℚ) ≤ COOLDOWN_SECONDS := by norm_num [COOLDOWN_SECONDS]
      rcases List.mem_cons.mp ht with h1 | h2
      · rw [h1]; linarith
      · have := ih hok_tail t0 t h2
        linarith
    · rw [accepted_times_cons_reject _ _ _ (Bool.not_eq_true _ ▸ eq_false_of_ne_true hacc)] at ht
      exact ih hok_tail s0 t ht

lemma accepted_times_chain (fs : List FrameInput)
    (hok : ∀ f ∈ fs, prompt_success f = true) :
    ∀ s : Option ℚ,
      List.Pairwise (fun a b => a + COOLDOWN_SECONDS ≤ b) (accepted_times s fs) := by
  induction fs with
  | nil =>
    intro s
    simp [accepted_times_nil]
  | cons f fs ih =>
    intro s
    have hok_tail : ∀ g ∈ fs, prompt_success g = true :=
      fun g hg => hok g (List.mem_cons_of_mem _ hg)
    by_cases hacc : (frame_intrusion f.dets && cooldown_ok s f.now) = true
    · obtain ⟨t0, ho, hnt⟩ := prompt_success_elim f (hok f (List.mem_cons_self _ _))
      rw [accepted_times_cons_accept _ _ _ hacc, ho, publish_alert_success]
      refine List.pairwise_cons.mpr ⟨?_, ih hok_tail _⟩
      intro t ht
      have := accepted_times_lb fs hok_tail t0 t ht
      linarith
    · rw [accepted_times_cons_reject _ _ _ (eq_false_of_ne_true hacc)]
      exact ih hok_tail s

lemma any_filter_qualifying (l : List Detection) (r : Detection → Bool) :
    (l.filter detection_qualifies).any (fun d => detection_qualifies d && r d) =
      l.any (fun d => detection_qualifies d && r d) := by
  induction l with
  | nil => rfl
  | cons d l ih => cases h : detection_qualifies d <;> simp [List.filter_cons, h, ih]

lemma demo_frame_intrusion : frame_intrusion [demo_detection] = true := by
  simp only [frame_intrusion, List.any_cons, List.any_nil, Bool.or_false,
    detection_qualifies, point_in_rect, det_cx, det_cy, demo_detection,
    CONF_THRESHOLD, ROI_X1, ROI_Y1, ROI_X2, ROI_Y2,
    Bool.and_eq_true, decide_eq_true_eq, beq_self_eq_true, Bool.true_and]
  norm_num

lemma cooldown_ok_eval (t now : ℚ) (h : COOLDOWN_SECONDS ≤ now - t) :
    cooldown_ok (some t) now = true := by
  simpa [cooldown_ok] using h

lemma cooldown_ok_eval_not (t now : ℚ) (h : now - t < COOLDOWN_SECONDS) :
    cooldown_ok (some t) now = false := by
  simp [cooldown_ok, not_le.mpr h]

/-! Claim theorems. -/

/-- Claim C3: `point_in_rect` returns true iff `x1 ≤ cx ≤ x2` and
`y1 ≤ cy ≤ y2`; in particular the corner `(x1, y1)` of a well-formed
rectangle lies inside (boundary-inclusive). -/
theorem point_in_rect_correct (cx cy x1 y1 x2 y2 : ℚ)
    (hx : x1 ≤ x2) (hy : y1 ≤ y2) :
    (point_in_rect cx cy x1 y1 x2 y2 = true ↔
      (x1 ≤ cx ∧ cx ≤ x2) ∧ (y1 ≤ cy ∧ cy ≤ y2)) ∧
    point_in_rect x1 y1 x1 y1 x2 y2 = true := by
  constructor
  · simp [point_in_rect]
  · simp [point_in_rect, hx, hy]

/-- Claim C3, witness: the spec scenario, center (300, 250) inside the
zone (100, 100)-(500, 400). -/
theorem point_in_rect_correct_witness :
    point_in_rect 300 250 100 100 500 400 = true :=
  (point_in_rect_correct 300 250 100 100 500 400 (by norm_num) (by norm_num)).1.mpr
    (by norm_num)

/-- Claim C4: the frame is flagged intruding iff some detection is a
person, at confidence at least `CONF_THRESHOLD`, with its box midpoint
inside the ROI; filtering out the non-qualifying detections does not
change the flag. -/
theorem frame_intrusion_correct (dets : List Detection) :
    (frame_intrusion dets = true ↔
      ∃ d ∈ dets, d.label = "person" ∧ CONF_THRESHOLD ≤ d.conf ∧
        point_in_rect (det_cx d) (det_cy d) ROI_X1 ROI_Y1 ROI_X2 ROI_Y2 = true) ∧
    frame_intrusion (dets.filter detection_qualifies) = frame_intrusion dets := by
  constructor
  · simp [frame_intrusion, detection_qualifies, List.any_eq_true, and_assoc]
  · exact any_filter_qualifying dets _

/-- Claim C8: decoding the encoded wire payload of any alert event
recovers the event. -/
theorem alert_roundtrip (e : AlertEvent) :
    decode_alert (some (encode_alert e)) = some e := rfl

/-- Claim C1 (amended): the gate accepts at time `now` iff the stored
timestamp is unset or at least `COOLDOWN_SECONDS` old; a rejected frame
leaves the stored timestamp unchanged; the first intrusion after
startup is always accepted; and when every frame's publish succeeds
promptly, no two accepted dispatches are less than `COOLDOWN_SECONDS`
apart. -/
theorem cooldown_gate_correct :
    (∀ (last_sent : Option ℚ) (now : ℚ),
      cooldown_ok last_sent now = true ↔
        last_sent = none ∨ ∃ t, last_sent = some t ∧ COOLDOWN_SECONDS ≤ now - t) ∧
    (∀ (s : Option ℚ) (f : FrameInput),
      cooldown_ok s f.now = false → (dispatch_step s f).1 = s) ∧
    (∀ f : FrameInput, frame_intrusion f.dets = true →
      (dispatch_step none f).2 = true) ∧
    (∀ fs : List FrameInput, (∀ f ∈ fs, prompt_success f = true) →
      List.Pairwise (fun a b => a + COOLDOWN_SECONDS ≤ b) (accepted_times none fs)) := by
  refine ⟨?_, ?_, ?_, ?_⟩
  · intro last_sent now
    cases last_sent <;> simp [cooldown_ok]
  · intro s f h
    simp [dispatch_step, h]
  · intro f h
    simp [dispatch_step, h, cooldown_ok]
  · intro fs hok
    exact accepted_times_chain fs hok none

/-- Claim C1, witness: the spec scenario, intruding frames at times 0,
2, 4, 6 with successful publishes give cooldown-spaced accepted
dispatches, and a first intrusion is accepted from the startup state. -/
theorem cooldown_gate_correct_witness :
    (dispatch_step none { dets := [demo_detection], now := 10, outcome := .success 10 }).2
        = true ∧
    List.Pairwise (fun a b => a + COOLDOWN_SECONDS ≤ b)
      (accepted_times none
        [{ dets := [demo_detection], now := 0, outcome := .success 0 },
         { dets := [demo_detection], now := 2, outcome := .success 2 },
         { dets := [demo_detection], now := 4, outcome := .success 4 },
         { dets := [demo_detection], now := 6, outcome := .success 6 }]) := by
  constructor
  · exact cooldown_gate_correct.2.2.1 _ demo_frame_intrusion
  · refine cooldown_gate_correct.2.2.2 _ ?_
    intro f hf
    simp only [List.mem_cons, List.not_mem_nil, or_false] at hf
    rcases hf with h | h | h | h <;> subst h <;> norm_num [prompt_success]

/-- Claim C1, counterexample to the claim as stated: when the first
publish fails, the stored timestamp becomes 0.0 instead of the
dispatch time, so intruding frames at times 10 and 11 are both
accepted even though they are only 1 second apart. -/
theorem cooldown_gate_rate_limit_counterexample :
    accepted_times none
        [{ dets := [demo_detection], now := 10, outcome := .failure },
         { dets := [demo_detection], now := 11, outcome := .success 11 }] = [10, 11] ∧
    ¬ List.Pairwise (fun a b => a + COOLDOWN_SECONDS ≤ b)
        (accepted_times none
          [{ dets := [demo_detection], now := 10, outcome := .failure },
           { dets := [demo_detection], now := 11, outcome := .success 11 }]) := by
  have hc : cooldown_ok (some 0) 11 = true :=
    cooldown_ok_eval 0 11 (by norm_num [COOLDOWN_SECONDS])
  have e1 : accepted_times none
      [{ dets := [demo_detection], now := 10, outcome := .failure },
       { dets := [demo_detection], now := 11, outcome := .success 11 }] = [10, 11] := by
    rw [accepted_times_cons_accept _ _ _ (by simp [demo_frame_intrusion, cooldown_ok])]
    rw [accepted_times_cons_accept _ _ _ (by simp [demo_frame_intrusion, publish_alert, hc])]
    rw [accepted_times_nil]
  refine ⟨e1, ?_⟩
  rw [e1]
  intro hp
  have := (List.pairwise_cons.mp hp).1 11 (List.mem_singleton.mpr rfl)
  norm_num [COOLDOWN_SECONDS] at this

/-- Claim C2: evaluation at the failing input.  With a prior stored
timestamp 2, an intrusion at time 10 is accepted, but its failed
publish leaves the stored timestamp at 2 instead of advancing it, so
the cooldown window is not consumed: the very next intruding frame, at
time 11, dispatches again. -/
theorem publish_failure_keeps_old_timestamp :
    publish_alert .failure (some 2) = 2 ∧
    dispatch_step (some 2) { dets := [demo_detection], now := 10, outcome := .failure }
        = (some 2, true) ∧
    (dispatch_step (some 2)
        { dets := [demo_detection], now := 11, outcome := .success 11 }).2 = true := by
  have h10 : cooldown_ok (some 2) 10 = true :=
    cooldown_ok_eval 2 10 (by norm_num [COOLDOWN_SECONDS])
  have h11 : cooldown_ok (some 2) 11 = true :=
    cooldown_ok_eval 2 11 (by norm_num [COOLDOWN_SECONDS])
  refine ⟨rfl, ?_, ?_⟩
  · simp [dispatch_step, demo_frame_intrusion, h10, publish_alert]
  · simp [dispatch_step, demo_frame_intrusion, h11]

/-- Claim C10: on a publish failure `publish_alert` returns the
previous timestamp when one exists and 0.0 when none does; hence a
failed first dispatch moves the state from `none` to `some 0`, after
which the gate decides through the elapsed-time branch and accepts
every time at least `COOLDOWN_SECONDS` past the epoch. -/
theorem publish_failure_fallback :
    (∀ t : ℚ, publish_alert .failure (some t) = t) ∧
    publish_alert .failure none = 0 ∧
    (∀ f : FrameInput, frame_intrusion f.dets = true → f.outcome = .failure →
      (dispatch_step none f).1 = some 0) ∧
    (∀ now : ℚ, COOLDOWN_SECONDS ≤ now → cooldown_ok (some 0) now = true) := by
  refine ⟨fun t => rfl, rfl, ?_, ?_⟩
  · intro f hi ho
    simp [dispatch_step, hi, cooldown_ok, ho, publish_alert]
  · intro now h
    simpa [cooldown_ok] using h

/-- Claim C10, witness: a failed first dispatch at time 3 stores 0.0,
and the gate then accepts at time 100 through the elapsed-time
branch. -/
theorem publish_failure_fallback_witness :
    (dispatch_step none { dets := [demo_detection], now := 3, outcome := .failure }).1
        = some 0 ∧
    cooldown_ok (some 0) 100 = true :=
  ⟨publish_failure_fallback.2.2.1 _ demo_frame_intrusion rfl,
   publish_failure_fallback.2.2.2 100 (by norm_num [COOLDOWN_SECONDS])⟩

/-- Claim C5: on a decoded object payload the handler raises the alert
presentation (red line plus beep, represented by `alertShown`) with the
payload's location and timestamp exactly when the status field equals
the string INTRUSION (the first conjunct relates the code's comparison
to that equality), and logs any other payload as informational. -/
theorem on_message_routes_by_status (fields : List (String × Json)) :
    (∀ (j : Json) (s : String), json_eq_str j s = true ↔ j = .str s) ∧
    (json_eq_str (dict_get fields "status" (.str "")) "INTRUSION" = true →
      on_message (some (.obj fields)) =
        .alertShown (dict_get fields "location" (.str "未知位置"))
          (dict_get fields "timestamp" (.str "未知時間"))) ∧
    (json_eq_str (dict_get fields "status" (.str "")) "INTRUSION" = false →
      on_message (some (.obj fields)) = .infoLogged (.obj fields)) := by
  refine ⟨?_, ?_, ?_⟩
  · intro j s
    cases j <;> simp [json_eq_str]
  · intro h
    simp [on_message, h]
  · intro h
    simp [on_message, h]

/-- Claim C5, witness: the two spec scenarios.  A payload with status
OK only gets the informational log; a full intrusion payload raises the
alert presentation with its location and timestamp. -/
theorem on_message_routes_by_status_witness :
    on_message (some (.obj [("status", Json.str "OK")])) =
      .infoLogged (.obj [("status", Json.str "OK")]) ∧
    on_message (some (.obj [("status", Json.str "INTRUSION"),
        ("timestamp", Json.str "2024-01-01 00:00:00"),
        ("location", Json.str "Living Room")])) =
      .alertShown (.str "Living Room") (.str "2024-01-01 00:00:00") :=
  ⟨(on_message_routes_by_status _).2.2 rfl,
   (on_message_routes_by_status _).2.1 rfl⟩

/-- Claim C6: evaluation at the failing input.  A payload that is valid
JSON but not an object (here the array 1, 2, 3) reaches the
`data.get` call on a non-dict value, whose `AttributeError` is raised
outside the `try` block and escapes the handler; a payload whose parse
fails is, by contrast, handled and dropped. -/
theorem on_message_nondict_uncaught :
    on_message (some (.arr [.num 1, .num 2, .num 3])) = .uncaughtException ∧
    on_message none = .decodeFailureLogged :=
  ⟨rfl, rfl⟩

/-- Claim C7, counterexample to the claim as stated: a syntactically
valid object payload with no status field does not produce a decode
failure — it decodes with status defaulting to the empty string and is
logged as informational; and the substituted defaults are the strings
未知時間 and 未知位置, not the English strings named in the claim. -/
theorem decode_missing_status_counterexample :
    on_message (some (.obj [("timestamp", Json.str "2024-01-01 00:00:00")])) =
      .infoLogged (.obj [("timestamp", Json.str "2024-01-01 00:00:00")]) ∧
    HandlerResult.infoLogged (.obj [("timestamp", Json.str "2024-01-01 00:00:00")]) ≠
      .decodeFailureLogged ∧
    ("未知時間" : String) ≠ "unknown time" ∧
    ("未知位置" : String) ≠ "unknown location" :=
  ⟨rfl, fun h => HandlerResult.noConfusion h, by decide, by decide⟩

/-- Claim C7 (amended): a payload whose parse raises is a handled
decode failure; a parsed object lacking the status field decodes with
status defaulting to the empty string and is handled as a non-alert
informational message; a missing timestamp or location is substituted
by the documented defaults, which are the strings 未知時間 (unknown
time) and 未知位置 (unknown location). -/
theorem decode_tolerant_defaults :
    on_message none = .decodeFailureLogged ∧
    (∀ fields : List (String × Json),
      List.find? (fun p => p.1 == "status") fields = none →
      on_message (some (.obj fields)) = .infoLogged (.obj fields)) ∧
    (∀ fields : List (String × Json),
      List.find? (fun p => p.1 == "timestamp") fields = none →
      dict_get fields "timestamp" (.str "未知時間") = .str "未知時間") ∧
    (∀ fields : List (String × Json),
      List.find? (fun p => p.1 == "location") fields = none →
      dict_get fields "location" (.str "未知位置") = .str "未知位置") := by
  refine ⟨rfl, ?_, ?_, ?_⟩
  · intro fields h
    have hs : dict_get fields "status" (.str "") = .str "" := by
      simp [dict_get, h]
    simp [on_message, hs, json_eq_str]
  · intro fields h
    simp [dict_get, h]
  · intro fields h
    simp [dict_get, h]

/-- Claim C7, witness: an object payload carrying only a location is
logged as informational, and a missing timestamp field yields the
default 未知時間. -/
theorem decode_tolerant_defaults_witness :
    on_message (some (.obj [("location", Json.str "Lab")])) =
      .infoLogged (.obj [("location", Json.str "Lab")]) ∧
    dict_get [("status", Json.str "INTRUSION")] "timestamp" (.str "未知時間") =
      .str "未知時間" :=
  ⟨decode_tolerant_defaults.2.1 _ rfl,
   decode_tolerant_defaults.2.2.1 _ rfl⟩

/-- Claim C9, counterexample to the claim as stated: the publisher
exits with status 0, not a non-zero status, both when the initial
broker connect fails and when the camera cannot be opened (its `main`
merely prints and returns). -/
theorem publisher_exit_zero_counterexample :
    (publisher_main false true .interrupt).exitCode = 0 ∧
    (publisher_main true false .interrupt).exitCode = 0 :=
  ⟨rfl, rfl⟩

/-- Claim C9 (amended): on a startup failure (broker connect or camera
open) the publisher logs, never enters the frame loop, and exits with
status 0; it also exits 0 on interrupt or the quit key.  The subscriber
exits 1 when its initial connect fails and 0 on interrupt. -/
theorem process_exit_codes :
    (∀ ending, (publisher_main false true ending).exitCode = 0 ∧
      (publisher_main false true ending).loopEntered = false) ∧
    (∀ ending, (publisher_main true false ending).exitCode = 0 ∧
      (publisher_main true false ending).loopEntered = false) ∧
    (∀ ending, (publisher_main true true ending).exitCode = 0 ∧
      (publisher_main true true ending).loopEntered = true) ∧
    subscriber_main false = 1 ∧
    subscriber_main true = 0 := by
  refine ⟨?_, ?_, ?_, rfl, rfl⟩ <;> intro ending <;> cases ending <;> exact ⟨rfl, rfl⟩
